import Mathlib

/-
Verification development for the continuous adaptive discovery loop of
m4_neo4j_accelerated_discovery.py.

The embedding translates the relevant Python code into Lean:
- Python floats that only ever hold decimal fractions and results of
  multiplying an integer by a decimal factor are modelled as rationals.
  For the scaling arithmetic, Python computes int(n * f) (truncation of a
  float product); for every factor appearing in the source (0.9, 1.25,
  0.8, 1.1) and every integer n below 200000 this equals the rational
  floor n * p / q, which is how it is modelled here.
- psutil.virtual_memory() is modelled as a MemInfo snapshot (GB values and
  a percent figure), since the code only reads total, available and percent.
- Randomness (random.uniform, random.random, np.random) is modelled by
  oracle functions passed as parameters: the claims under study depend
  only on the control structure, never on the sampled values.
- math.cos / math.sin / math.sqrt / np.log are modelled by an abstract
  MathOracle, again because no claim depends on their values.
- Fallible operations (Neo4j store, file write, Python division) are
  modelled with Except.
-/

namespace M4Discovery

/-! ## Resource monitoring and auto-scaling
    (source: M4Neo4jConfig lines 47-51, _monitor_and_adjust_resources lines 515-551) -/

/-- Snapshot of psutil.virtual_memory(), reduced to the three fields the
source reads: total and available memory in GB, and the used percentage. -/
structure MemInfo where
  totalGb : ℚ
  availableGb : ℚ
  percent : ℚ

/-- The mutable configuration fields of M4Neo4jConfig that
_monitor_and_adjust_resources reads or writes, plus the constant
max_batch_size from the same dataclass block (lines 47-51). -/
structure ScaleConfig where
  autoScale : Bool
  batchSize : ℕ
  maxBatchSize : ℕ
  sequencesPerCycle : ℕ
deriving DecidableEq

/-- Initial values from the M4Neo4jConfig dataclass: batch_size = 512
(line 38), max_batch_size = 64, sequences_per_cycle = 32 (lines 48-49),
auto_scale = True (line 44). -/
def initialConfig : ScaleConfig :=
  { autoScale := true, batchSize := 512, maxBatchSize := 64, sequencesPerCycle := 32 }

/-- Log messages emitted by _monitor_and_adjust_resources, carrying the
old and new values exactly when the source logs a change. -/
inductive ScaleLog
  | warnReduceSequences (oldN newN : ℕ)
  | infoScaleUpSequences (oldN newN : ℕ)
  | warnReduceBatch (oldN newN : ℕ)
  | infoIncreaseBatch (oldN newN : ℕ)
deriving DecidableEq

/-- _monitor_and_adjust_resources (lines 515-551).  Returns the updated
configuration together with the log messages emitted.  int(n * 0.9) is
modelled as n * 9 / 10 (Nat floor division), and likewise for the other
factors; see the header comment for why this is exact. -/
def monitorAndAdjustResources (cfg : ScaleConfig) (m : MemInfo) :
    ScaleConfig × List ScaleLog :=
  if cfg.autoScale = false then (cfg, [])
  else if 100 ≤ m.totalGb then
    if 90 < m.percent then
      let newSequences := max 256 (cfg.sequencesPerCycle * 9 / 10)
      if newSequences ≠ cfg.sequencesPerCycle then
        ({ cfg with sequencesPerCycle := newSequences },
         [ScaleLog.warnReduceSequences cfg.sequencesPerCycle newSequences])
      else (cfg, [])
    else if m.percent < 70 ∧ 40 < m.availableGb then
      let newSequences := min 1024 (cfg.sequencesPerCycle * 5 / 4)
      if newSequences ≠ cfg.sequencesPerCycle then
        ({ cfg with sequencesPerCycle := newSequences },
         [ScaleLog.infoScaleUpSequences cfg.sequencesPerCycle newSequences])
      else (cfg, [])
    else (cfg, [])
  else
    if 85 < m.percent then
      let newBatch := max 8 (cfg.batchSize * 4 / 5)
      if newBatch ≠ cfg.batchSize then
        ({ cfg with batchSize := newBatch },
         [ScaleLog.warnReduceBatch cfg.batchSize newBatch])
      else (cfg, [])
    else if m.percent < 60 then
      let newBatch := min 512 (cfg.batchSize * 11 / 10)
      if newBatch ≠ cfg.batchSize then
        ({ cfg with batchSize := newBatch },
         [ScaleLog.infoIncreaseBatch cfg.batchSize newBatch])
      else (cfg, [])
    else (cfg, [])

/-! ## Signal handling and the continuous cycle loop
    (source: __init__ lines 288-307, _signal_handler lines 319-322,
     run_continuous_discovery lines 324-401) -/

/-- The engine state the signal handler and loop can touch: the running
flag (line 289) and the performance counters (lines 294-303); the mutable
scaling configuration is carried along as well. -/
structure EngineState where
  running : Bool
  config : ScaleConfig
  sequencesProcessed : ℕ
  validDiscoveriesFound : ℕ
  cyclesCompleted : ℕ
deriving DecidableEq

/-- Log events of the signal handler. -/
inductive EngineLog
  | receivedSignal (signum : ℕ)
deriving DecidableEq

/-- _signal_handler (lines 319-322): logs the received signal via
logger.info and sets self.running = False; it does nothing else.  The
emitted log entries are returned explicitly so that the handler's I/O is
part of the model. -/
def signalHandler (st : EngineState) (signum : ℕ) : EngineState × List EngineLog :=
  ({ st with running := false }, [EngineLog.receivedSignal signum])

/-- Outcome of the body of one cycle of run_continuous_discovery: either
the cycle completes, or some step of it raises an exception with a
message. -/
inductive CycleOutcome
  | ok
  | err (msg : String)
deriving DecidableEq

/-- One scheduled iteration of the loop: the outcome of the cycle body and
whether an interrupt/terminate signal is delivered during or right after
this iteration (the handler itself is signalHandler; here only its effect
on the running flag matters, observed at the top of the next iteration). -/
structure CycleItem where
  outcome : CycleOutcome
  signalArrives : Bool
deriving DecidableEq

/-- Observable events of run_continuous_discovery: a completed cycle, the
except-branch pair of lines 393-396 (logger.error plus time.sleep(0.1)),
and the post-loop shutdown actions of lines 398-401
(_generate_shutdown_report, and neo4j_engine.close() when use_neo4j). -/
inductive RunEvent
  | cycleCompleted
  | errorLogged (msg : String)
  | slept (seconds : ℚ)
  | finalReport
  | primaryClosed
deriving DecidableEq

/-- run_continuous_discovery (lines 324-401) as a trace function over a
finite schedule of iterations.  While running is true, each scheduled
iteration either completes (cycleCompleted) or hits the broad except
branch, which logs the error and sleeps a fixed 0.1 seconds and leaves
the running flag untouched.  When the loop observes running = false it
emits the final shutdown report and, if use_neo4j, closes the Neo4j
engine.  An exhausted schedule with running still true means the loop is
still going: no exit events. -/
def runDiscovery (useNeo4j : Bool) : List CycleItem → Bool → List RunEvent
  | _, false => RunEvent.finalReport :: (if useNeo4j then [RunEvent.primaryClosed] else [])
  | [], true => []
  | item :: rest, true =>
    (match item.outcome with
      | CycleOutcome.ok => [RunEvent.cycleCompleted]
      | CycleOutcome.err m => [RunEvent.errorLogged m, RunEvent.slept (1/10)])
      ++ runDiscovery useNeo4j rest (!item.signalArrives)

/-- Number of finalReport events in a trace. -/
def reportCount : List RunEvent → ℕ
  | [] => 0
  | RunEvent.finalReport :: rest => reportCount rest + 1
  | _ :: rest => reportCount rest

/-! ## vQbit state generation and metal analysis
    (source: _generate_vqbit_quantum_states lines 99-183,
     _simplified_metal_analysis lines 185-244,
     massive_batch_analysis lines 246-248) -/

/-- Abstract transcendental functions used by the source (math.cos,
math.sin, math.sqrt, np.log).  No claim depends on their values. -/
structure MathOracle where
  cos : ℚ → ℚ
  sin : ℚ → ℚ
  sqrt : ℚ → ℚ
  logF : ℚ → ℚ

/-- The random draws consumed for one residue in
_generate_vqbit_quantum_states: phase and the two uniform(0.5, 1.0)
amplitude factors (lines 109-111), entanglement, coherence and the
collapse roll (lines 119-121), the two Ramachandran jitters (lines
140-141), the eight virtue projection draws (lines 144-161), and the
entanglement-with-previous draw (line 164). -/
structure ResidueDraw where
  phase : ℚ
  ampFactorReal : ℚ
  ampFactorImag : ℚ
  entanglement : ℚ
  coherence : ℚ
  collapseRoll : ℚ
  phiJitter : ℚ
  psiJitter : ℚ
  justiceStrength : ℚ
  justicePhase : ℚ
  honestyStrength : ℚ
  honestyPhase : ℚ
  temperanceStrength : ℚ
  temperancePhase : ℚ
  prudenceStrength : ℚ
  prudencePhase : ℚ
  entanglementWithPrev : ℚ

/-- The virtue projection strengths and phases of one vQbit state
(source lines 144-161; each entry is a strength/phase pair). -/
structure VirtueProjections where
  justiceStrength : ℚ
  justicePhase : ℚ
  honestyStrength : ℚ
  honestyPhase : ℚ
  temperanceStrength : ℚ
  temperancePhase : ℚ
  prudenceStrength : ℚ
  prudencePhase : ℚ

/-- One vQbit state dictionary (source lines 166-179). -/
structure VQbitState where
  residueIndex : ℕ
  aminoAcid : Char
  phi : ℚ
  psi : ℚ
  amplitudeReal : ℚ
  amplitudeImag : ℚ
  entanglement : ℚ
  coherence : ℚ
  collapsed : Bool
  phase : ℚ
  virtueProjections : VirtueProjections
  entanglementWithPrev : ℚ

/-- phi_base lookup (source lines 124-130), default -60. -/
def phiBase (aminoAcid : Char) : ℚ :=
  if aminoAcid = 'G' then -60 else if aminoAcid = 'P' then -60
  else if aminoAcid = 'A' then -60 else if aminoAcid = 'V' then -120
  else if aminoAcid = 'L' then -120 else if aminoAcid = 'I' then -120
  else if aminoAcid = 'M' then -60 else if aminoAcid = 'F' then -120
  else if aminoAcid = 'W' then -120 else if aminoAcid = 'Y' then -120
  else if aminoAcid = 'S' then -60 else if aminoAcid = 'T' then -60
  else if aminoAcid = 'C' then -60 else if aminoAcid = 'N' then -60
  else if aminoAcid = 'Q' then -60 else if aminoAcid = 'H' then -60
  else if aminoAcid = 'K' then -120 else if aminoAcid = 'R' then -120
  else if aminoAcid = 'D' then -60 else if aminoAcid = 'E' then -60
  else -60

/-- psi_base lookup (source lines 132-138), default -45. -/
def psiBase (aminoAcid : Char) : ℚ :=
  if aminoAcid = 'G' then 180 else if aminoAcid = 'P' then 120
  else if aminoAcid = 'A' then -45 else if aminoAcid = 'V' then 120
  else if aminoAcid = 'L' then 120 else if aminoAcid = 'I' then 120
  else if aminoAcid = 'M' then -45 else if aminoAcid = 'F' then 120
  else if aminoAcid = 'W' then 120 else if aminoAcid = 'Y' then 120
  else if aminoAcid = 'S' then -45 else if aminoAcid = 'T' then -45
  else if aminoAcid = 'C' then -45 else if aminoAcid = 'N' then -45
  else if aminoAcid = 'Q' then -45 else if aminoAcid = 'H' then -45
  else if aminoAcid = 'K' then 120 else if aminoAcid = 'R' then 120
  else if aminoAcid = 'D' then -45 else if aminoAcid = 'E' then -45
  else -45

/-- _generate_vqbit_quantum_states (lines 99-183): one state per residue
of the sequence, in order.  The draws oracle supplies the random values
for residue i. -/
def generateVqbitQuantumStates (o : MathOracle) (draw : ℕ → ResidueDraw)
    (sequence : String) : List VQbitState :=
  sequence.toList.enum.map (fun p =>
    let i := p.1
    let aminoAcid := p.2
    let r := draw i
    let amplitudeReal0 := o.cos r.phase * r.ampFactorReal
    let amplitudeImag0 := o.sin r.phase * r.ampFactorImag
    let magnitude := o.sqrt (amplitudeReal0 ^ 2 + amplitudeImag0 ^ 2)
    { residueIndex := i
      aminoAcid := aminoAcid
      phi := phiBase aminoAcid + r.phiJitter
      psi := psiBase aminoAcid + r.psiJitter
      amplitudeReal := amplitudeReal0 / magnitude
      amplitudeImag := amplitudeImag0 / magnitude
      entanglement := r.entanglement
      coherence := r.coherence
      collapsed := decide (r.collapseRoll < 15/100)
      phase := r.phase
      virtueProjections :=
        { justiceStrength := r.justiceStrength, justicePhase := r.justicePhase
          honestyStrength := r.honestyStrength, honestyPhase := r.honestyPhase
          temperanceStrength := r.temperanceStrength, temperancePhase := r.temperancePhase
          prudenceStrength := r.prudenceStrength, prudencePhase := r.prudencePhase }
      entanglementWithPrev := if 0 < i then r.entanglementWithPrev else 0 })

/-- np.mean of a list of rationals; for the empty list the source gets
NaN (with a warning, not an exception), modelled here as 0/0 = 0 — the
value is never observed because the empty case raises at the
superposition_fidelity division before any result is returned. -/
def ratMean (xs : List ℚ) : ℚ := xs.sum / xs.length

/-- The virtue_scores dictionary of one analysis result (lines 211-220). -/
structure VirtueScores where
  justice : ℚ
  honesty : ℚ
  temperance : ℚ
  prudence : ℚ
deriving DecidableEq

/-- The quantum_analysis dictionary (lines 223-228).  The fallback
default of _ultra_fast_validate_and_store (line 448) omits the
quantum_phase_correlation key; since the source only ever reads
superposition_fidelity via .get with default 0, the missing key is
modelled as the field being 0. -/
structure QuantumAnalysis where
  coherence : ℚ
  entanglementEntropy : ℚ
  superpositionFidelity : ℚ
  quantumPhaseCorrelation : ℚ
deriving DecidableEq

/-- One per-sequence result of _simplified_metal_analysis
(lines 230-236). -/
structure IndividualResult where
  vqbitScore : ℚ
  energy : ℚ
  virtueScores : VirtueScores
  vqbitStates : List VQbitState
  quantumAnalysis : QuantumAnalysis

/-- The random draws consumed per sequence by _simplified_metal_analysis:
the energy jitter uniform(-50, 50) of line 208 and the four
uniform(0.5, 1.5) virtue multipliers of lines 211-219. -/
structure SeqDraw where
  energyJitter : ℚ
  justiceMul : ℚ
  honestyMul : ℚ
  temperanceMul : ℚ
  prudenceMul : ℚ

/-- The per-sequence body of _simplified_metal_analysis (lines 193-236).
The superposition_fidelity line 226 divides by len(vqbit_states) with
Python integers, which raises ZeroDivisionError when the sequence is
empty; everything before it (np.mean of empty lists) yields NaN silently,
so the division is the first and only raising operation. -/
def analyzeSequence (o : MathOracle) (draw : ℕ → ResidueDraw) (sd : SeqDraw)
    (sequence : String) : Except String IndividualResult :=
  let vqbitStates := generateVqbitQuantumStates o draw sequence
  let avgEntanglement := ratMean (vqbitStates.map (fun v => v.entanglement))
  let avgCoherence := ratMean (vqbitStates.map (fun v => v.coherence))
  let collapsedCount := (vqbitStates.filter (fun v => v.collapsed)).length
  let vqbitScore := (avgEntanglement + avgCoherence) / 2
  let energy := -300 + (avgEntanglement - 1/2) * 50 + sd.energyJitter
  let virtueScores : VirtueScores :=
    { justice := ratMean (vqbitStates.map (fun v => v.virtueProjections.justiceStrength))
          * sd.justiceMul - 1/4
      honesty := ratMean (vqbitStates.map (fun v => v.virtueProjections.honestyStrength))
          * sd.honestyMul - 1/4
      temperance := ratMean (vqbitStates.map (fun v => v.virtueProjections.temperanceStrength))
          * sd.temperanceMul - 1/5
      prudence := ratMean (vqbitStates.map (fun v => v.virtueProjections.prudenceStrength))
          * sd.prudenceMul - 1/5 }
  if vqbitStates.length = 0 then
    Except.error "ZeroDivisionError: division by zero"
  else
    Except.ok
      { vqbitScore := vqbitScore
        energy := energy
        virtueScores := virtueScores
        vqbitStates := vqbitStates
        quantumAnalysis :=
          { coherence := avgCoherence
            entanglementEntropy :=
              -avgEntanglement * o.logF (avgEntanglement + 1/10000000000)
            superpositionFidelity :=
              ((vqbitStates.length : ℚ) - collapsedCount) / vqbitStates.length
            quantumPhaseCorrelation := ratMean (vqbitStates.map (fun v => v.phase)) } }

/-- The loop over sequences in _simplified_metal_analysis (lines 193-236):
sequences are processed in order and the first exception aborts the whole
call, as in Python. -/
def analyzeAll (o : MathOracle) (draws : ℕ → ℕ → ResidueDraw) (sdraws : ℕ → SeqDraw) :
    ℕ → List String → Except String (List IndividualResult)
  | _, [] => Except.ok []
  | i, s :: rest =>
    match analyzeSequence o (draws i) (sdraws i) s with
    | Except.error e => Except.error e
    | Except.ok r =>
      match analyzeAll o draws sdraws (i + 1) rest with
      | Except.error e => Except.error e
      | Except.ok rs => Except.ok (r :: rs)

/-- The full return dictionary of _simplified_metal_analysis
(lines 238-244). -/
structure MetalResults where
  individualResults : List IndividualResult
  batchSize : ℕ
  device : String
  metalOptimized : Bool
  vqbitQuantumEnabled : Bool

/-- _simplified_metal_analysis (lines 185-244). -/
def simplifiedMetalAnalysis (o : MathOracle) (draws : ℕ → ℕ → ResidueDraw)
    (sdraws : ℕ → SeqDraw) (device : String) (sequences : List String) :
    Except String MetalResults :=
  match analyzeAll o draws sdraws 0 sequences with
  | Except.error e => Except.error e
  | Except.ok rs =>
    Except.ok
      { individualResults := rs
        batchSize := sequences.length
        device := device
        metalOptimized := true
        vqbitQuantumEnabled := true }

/-- massive_batch_analysis (lines 246-248): a direct wrapper. -/
def massiveBatchAnalysis (o : MathOracle) (draws : ℕ → ℕ → ResidueDraw)
    (sdraws : ℕ → SeqDraw) (device : String) (sequences : List String) :
    Except String MetalResults :=
  simplifiedMetalAnalysis o draws sdraws device sequences

/-! ## Validation and storage
    (source: __init__ fallback-directory setup lines 309-312,
     _ultra_fast_validate_and_store lines 403-505,
     _save_discovery_to_file lines 507-513) -/

/-- Number of residues of the sequence belonging to the hydrophobic set
'ALFWMIV' (line 416). -/
def hydrophobicCount (sequence : String) : ℕ :=
  (sequence.toList.filter (fun aa => aa ∈ "ALFWMIV".toList)).length

/-- Number of residues of the sequence belonging to the charged set
'DEHKR' (line 417). -/
def chargedCount (sequence : String) : ℕ :=
  (sequence.toList.filter (fun aa => aa ∈ "DEHKR".toList)).length

/-- Number of residues of the sequence belonging to the polar set
'NQSTCY' (line 418). -/
def polarCount (sequence : String) : ℕ :=
  (sequence.toList.filter (fun aa => aa ∈ "NQSTCY".toList)).length

/-- The quality score computed inline in _ultra_fast_validate_and_store
(lines 415-431): base 0.3, plus 0.25 when the hydrophobic fraction lies
in [0.05, 0.9], plus 0.25 when the charged fraction lies in [0.02, 0.6],
plus 0.2 when the polar fraction lies in [0.02, 0.6].  The float sums of
the source are exact decimals (0.3 + 0.25 + 0.25 + 0.2 evaluates to
exactly 1.0 in IEEE doubles), so rational arithmetic is faithful. -/
def qualityScore (sequence : String) : ℚ :=
  let hydrophobicFraction := (hydrophobicCount sequence : ℚ) / sequence.length
  let chargedFraction := (chargedCount sequence : ℚ) / sequence.length
  let polarFraction := (polarCount sequence : ℚ) / sequence.length
  3/10
    + (if 1/20 ≤ hydrophobicFraction ∧ hydrophobicFraction ≤ 9/10 then 1/4 else 0)
    + (if 1/50 ≤ chargedFraction ∧ chargedFraction ≤ 3/5 then 1/4 else 0)
    + (if 1/50 ≤ polarFraction ∧ polarFraction ≤ 3/5 then 1/5 else 0)

/-- The metal_analysis sub-dictionary of a discovery record
(lines 458-462). -/
structure MetalAnalysisSummary where
  vqbitScore : ℚ
  energyKcalMol : ℚ
  virtueScores : VirtueScores
deriving DecidableEq

/-- The constant hardware_info sub-dictionary (lines 466-471). -/
structure HardwareInfo where
  processedOn : String
  metalAccelerated : Bool
  unifiedMemory : Bool
  vqbitQuantumEnabled : Bool
deriving DecidableEq

/-- The hardware_info value every discovery record carries. -/
def m4HardwareInfo : HardwareInfo :=
  { processedOn := "M4_Mac_Pro_40_GPU", metalAccelerated := true,
    unifiedMemory := true, vqbitQuantumEnabled := true }

/-- A discovery record (lines 454-472).  The genetics_context payload is
kept opaque (type parameter G): _generate_genetics_context is a pure
producer of domain payload the persistence claims never inspect.
neo4j_id is set only after a successful Neo4j store (line 478). -/
structure Discovery (G : Type) where
  sequence : String
  validationScore : ℚ
  assessment : String
  metalAnalysis : MetalAnalysisSummary
  geneticsContext : G
  vqbitStates : List VQbitState
  quantumAnalysis : QuantumAnalysis
  hardwareInfo : HardwareInfo
  neo4jId : Option String

/-- Storage-related state of the engine: the use_neo4j flag decided in
__init__ (lines 266-286), the behaviour of
neo4j_engine.store_discovery for each successive call (an id or a raised
error), and the discovery_output_dir attribute, present only when
__init__ created it. -/
structure StorageEnv where
  useNeo4j : Bool
  primaryStore : ℕ → Except String String
  outputDir : Option String

/-- __init__ lines 309-312: the fallback directory attribute
discovery_output_dir is created only when Neo4j is NOT in use.  When
use_neo4j is true the attribute does not exist, so any later
_save_discovery_to_file call raises AttributeError. -/
def initOutputDir (useNeo4j : Bool) : Option String :=
  if useNeo4j then none else some "m4_continuous_discoveries"

/-- The error raised by _save_discovery_to_file when
self.discovery_output_dir was never created. -/
def attributeError : String := "AttributeError: discovery_output_dir"

/-- Print and log events of _ultra_fast_validate_and_store.  The source
emits printStoredPrimary and printStoredFile via print, errorFailedStore
via logger.error, infoHighFidelity via logger.info, and debugItemError
via logger.debug — the latter is suppressed at runtime because
logging.basicConfig(level=logging.INFO) (line 31) filters DEBUG. -/
inductive StoreLog
  | printStoredPrimary (idShort : String)
  | infoHighFidelity
  | printStoredFile
  | printStorageError (e : String)
  | errorFailedStore (e : String)
  | debugItemError (i : ℕ)
deriving DecidableEq

/-- The accumulated observable results of _ultra_fast_validate_and_store:
the returned valid_discoveries list, the records durably written by
_save_discovery_to_file, the ids returned by successful Neo4j stores,
and all print/log events in order. -/
structure VStoreOutput (G : Type) where
  validDiscoveries : List (Discovery G)
  fileWrites : List (Discovery G)
  primaryIds : List String
  logs : List StoreLog

/-- The loop body of _ultra_fast_validate_and_store (lines 411-500),
processing sequences in input order.  i is the enumerate index, calls
counts store_discovery invocations.  Per item:
length gate (line 414), score (lines 415-431), per-index result with
fallback defaults (lines 433-448), genetics context (line 451), record
construction (lines 453-472), then the nested storage try (lines
474-494): a Neo4j success appends the id-bearing record; a Neo4j failure
logs and retries _save_discovery_to_file, which itself raises
AttributeError when discovery_output_dir was never created, in which case
the outer per-item handler (lines 498-500) logs at DEBUG and drops the
record. -/
def processItems {G : Type} (env : StorageEnv)
    (genCtx : String → QuantumAnalysis → VirtueScores → G)
    (results : List IndividualResult) :
    List String → ℕ → ℕ → VStoreOutput G
  | [], _, _ => { validDiscoveries := [], fileWrites := [], primaryIds := [], logs := [] }
  | sequence :: rest, i, calls =>
    if 15 ≤ sequence.length ∧ sequence.length ≤ 100 then
      let score := qualityScore sequence
      let fields :=
        if h : i < results.length then
          let r := results.get ⟨i, h⟩
          (r.vqbitScore, r.energy, r.virtueScores, r.vqbitStates, r.quantumAnalysis)
        else
          ((1/2 : ℚ), (-300 : ℚ),
           ({ justice := 0, honesty := 0, temperance := 0, prudence := 0 } : VirtueScores),
           ([] : List VQbitState),
           ({ coherence := 0, entanglementEntropy := 0, superpositionFidelity := 0,
              quantumPhaseCorrelation := 0 } : QuantumAnalysis))
      let discovery : Discovery G :=
        { sequence := sequence
          validationScore := score
          assessment := "VALID: Quantum-enhanced validation with genetics context"
          metalAnalysis :=
            { vqbitScore := fields.1, energyKcalMol := fields.2.1,
              virtueScores := fields.2.2.1 }
          geneticsContext := genCtx sequence fields.2.2.2.2 fields.2.2.1
          vqbitStates := fields.2.2.2.1
          quantumAnalysis := fields.2.2.2.2
          hardwareInfo := m4HardwareInfo
          neo4jId := none }
      if env.useNeo4j then
        match env.primaryStore calls with
        | Except.ok discoveryId =>
          let stored := { discovery with neo4jId := some discoveryId }
          let fidelityLogs :=
            if 4/5 < discovery.quantumAnalysis.superpositionFidelity then
              [StoreLog.infoHighFidelity] else []
          let tail := processItems env genCtx results rest (i + 1) (calls + 1)
          { validDiscoveries := stored :: tail.validDiscoveries
            fileWrites := tail.fileWrites
            primaryIds := discoveryId :: tail.primaryIds
            logs := (StoreLog.printStoredPrimary (discoveryId.take 12) :: fidelityLogs)
              ++ tail.logs }
        | Except.error e =>
          match env.outputDir with
          | some _ =>
            let tail := processItems env genCtx results rest (i + 1) (calls + 1)
            { validDiscoveries := discovery :: tail.validDiscoveries
              fileWrites := discovery :: tail.fileWrites
              primaryIds := tail.primaryIds
              logs := [StoreLog.printStorageError e, StoreLog.errorFailedStore e]
                ++ tail.logs }
          | none =>
            let tail := processItems env genCtx results rest (i + 1) (calls + 1)
            { validDiscoveries := tail.validDiscoveries
              fileWrites := tail.fileWrites
              primaryIds := tail.primaryIds
              logs := [StoreLog.printStorageError e, StoreLog.errorFailedStore e,
                       StoreLog.debugItemError i] ++ tail.logs }
      else
        match env.outputDir with
        | some _ =>
          let tail := processItems env genCtx results rest (i + 1) calls
          { validDiscoveries := discovery :: tail.validDiscoveries
            fileWrites := discovery :: tail.fileWrites
            primaryIds := tail.primaryIds
            logs := StoreLog.printStoredFile :: tail.logs }
        | none =>
          let tail := processItems env genCtx results rest (i + 1) calls
          { validDiscoveries := tail.validDiscoveries
            fileWrites := tail.fileWrites
            primaryIds := tail.primaryIds
            logs := [StoreLog.printStorageError attributeError,
                     StoreLog.errorFailedStore attributeError,
                     StoreLog.debugItemError i] ++ tail.logs }
    else
      processItems env genCtx results rest (i + 1) calls

/-- _ultra_fast_validate_and_store (lines 403-505).  The unused
individual_scores lookup of line 407 is dropped; the function reads
metal_results['individual_results'] with default []. -/
def ultraFastValidateAndStore {G : Type} (env : StorageEnv)
    (genCtx : String → QuantumAnalysis → VirtueScores → G)
    (sequences : List String) (metalResults : MetalResults) : VStoreOutput G :=
  processItems env genCtx metalResults.individualResults sequences 0 0

/-! ## Auxiliary values used in theorem statements and witnesses -/

/-- Decidable well-formedness of a returned discovery record: sequence
length in [15, 100] and validation score in [0.3, 1.0]. -/
def discoveryInSpecB {G : Type} (d : Discovery G) : Bool :=
  decide (15 ≤ d.sequence.length) && decide (d.sequence.length ≤ 100)
    && decide ((3/10 : ℚ) ≤ d.validationScore) && decide (d.validationScore ≤ 1)

/-- An oracle whose transcendental functions return 0 everywhere (the
values are irrelevant to the properties under study). -/
def zeroOracle : MathOracle :=
  { cos := fun _ => 0, sin := fun _ => 0, sqrt := fun _ => 0, logF := fun _ => 0 }

/-- All-zero per-residue draws. -/
def zeroResidueDraw : ResidueDraw :=
  { phase := 0, ampFactorReal := 0, ampFactorImag := 0, entanglement := 0,
    coherence := 0, collapseRoll := 0, phiJitter := 0, psiJitter := 0,
    justiceStrength := 0, justicePhase := 0, honestyStrength := 0,
    honestyPhase := 0, temperanceStrength := 0, temperancePhase := 0,
    prudenceStrength := 0, prudencePhase := 0, entanglementWithPrev := 0 }

/-- All-zero per-sequence draws. -/
def zeroSeqDraw : SeqDraw :=
  { energyJitter := 0, justiceMul := 0, honestyMul := 0, temperanceMul := 0,
    prudenceMul := 0 }

/-- A 20-residue all-alanine sequence: it passes the length gate
(15 ≤ 20 ≤ 100). -/
def seqA20 : String := "AAAAAAAAAAAAAAAAAAAA"

/-- The storage environment of an engine started with use_neo4j = True
whose Neo4j store_discovery raises on every call.  Per __init__
(lines 309-312, modelled by initOutputDir) the fallback directory
attribute was never created. -/
def failingPrimaryEnv : StorageEnv :=
  { useNeo4j := true, primaryStore := fun _ => Except.error "Neo4j unavailable",
    outputDir := initOutputDir true }

/-- The storage environment of an engine started with use_neo4j = False:
fallback file storage with the directory created by __init__. -/
def fallbackOnlyEnv : StorageEnv :=
  { useNeo4j := false, primaryStore := fun _ => Except.error "never called",
    outputDir := initOutputDir false }

/-- A metal_results value whose individual_results list is empty, as
_ultra_fast_validate_and_store receives when the scorer returns fewer
per-item results than items. -/
def emptyMetalResults : MetalResults :=
  { individualResults := [], batchSize := 1, device := "mps",
    metalOptimized := true, vqbitQuantumEnabled := true }

/-- A trivial genetics-context producer for witnesses (payload Unit). -/
def unitGenCtx : String → QuantumAnalysis → VirtueScores → Unit :=
  fun _ _ _ => ()

/-! ## Theorems: auto-scaling (claims C2, C3, C4, C8) -/

/-- C2 counterexample: the claimed invariant min_items ≤ sequences_per_cycle
≤ max_items fails on the code as stated.  The only clamp bounds the scaler
applies to sequences_per_cycle are 256 (scale-down floor, line 529) and
1024 (scale-up cap, line 536), yet the initial configuration starts at
sequences_per_cycle = 32, below the floor; and the very first high-pressure
decision jumps it to 256, which also exceeds the config's own
max_batch_size = 64, so no reading of min_items/max_items from the source
makes the invariant hold both before and after decisions starting from the
initial configuration. -/
theorem c2_initial_config_outside_scaler_bounds :
    initialConfig.sequencesPerCycle = 32
      ∧ ¬ (256 ≤ initialConfig.sequencesPerCycle)
      ∧ (monitorAndAdjustResources initialConfig
          { totalGb := 128, availableGb := 50, percent := 95 }).1.sequencesPerCycle = 256
      ∧ ¬ ((monitorAndAdjustResources initialConfig
          { totalGb := 128, availableGb := 50, percent := 95 }).1.sequencesPerCycle
            ≤ initialConfig.maxBatchSize) := by
  have h : monitorAndAdjustResources initialConfig
      { totalGb := 128, availableGb := 50, percent := 95 }
      = ({ initialConfig with sequencesPerCycle := 256 },
         [ScaleLog.warnReduceSequences 32 256]) := by
    norm_num [monitorAndAdjustResources, initialConfig]
  rw [h]
  norm_num [initialConfig]

/-- C2 amended: the clamp interval [256, 1024] that the scaler itself
enforces on sequences_per_cycle is preserved by every decision once it
holds; the invariant simply does not hold at the initial configuration. -/
theorem c2_scaler_bounds_preserved (cfg : ScaleConfig) (m : MemInfo)
    (h1 : 256 ≤ cfg.sequencesPerCycle) (h2 : cfg.sequencesPerCycle ≤ 1024) :
    256 ≤ (monitorAndAdjustResources cfg m).1.sequencesPerCycle
      ∧ (monitorAndAdjustResources cfg m).1.sequencesPerCycle ≤ 1024 := by
  simp only [monitorAndAdjustResources]
  split_ifs <;> simp_all <;> omega

/-- Witness for c2_scaler_bounds_preserved at a concrete in-bounds
configuration under high memory pressure. -/
theorem c2_scaler_bounds_preserved_witness :
    256 ≤ (monitorAndAdjustResources { initialConfig with sequencesPerCycle := 300 }
        { totalGb := 128, availableGb := 50, percent := 95 }).1.sequencesPerCycle
      ∧ (monitorAndAdjustResources { initialConfig with sequencesPerCycle := 300 }
        { totalGb := 128, availableGb := 50, percent := 95 }).1.sequencesPerCycle ≤ 1024 :=
  c2_scaler_bounds_preserved _ _ (by decide) (by decide)

/-- C3 counterexample: at the initial sequences_per_cycle = 32 (which is
not the floor value 256), the high-pressure decision yields 256 — an
increase, not the claimed strict decrease. -/
theorem c3_scale_down_can_increase_below_floor :
    (monitorAndAdjustResources initialConfig
        { totalGb := 128, availableGb := 50, percent := 95 }).1.sequencesPerCycle = 256
      ∧ initialConfig.sequencesPerCycle = 32
      ∧ initialConfig.sequencesPerCycle ≠ 256
      ∧ ¬ ((monitorAndAdjustResources initialConfig
          { totalGb := 128, availableGb := 50, percent := 95 }).1.sequencesPerCycle
            < initialConfig.sequencesPerCycle) := by
  have h : monitorAndAdjustResources initialConfig
      { totalGb := 128, availableGb := 50, percent := 95 }
      = ({ initialConfig with sequencesPerCycle := 256 },
         [ScaleLog.warnReduceSequences 32 256]) := by
    norm_num [monitorAndAdjustResources, initialConfig]
  rw [h]
  norm_num [initialConfig]

/-- C3 amended: on an M4-sized machine (total ≥ 100 GB) under pressure
above 90 percent, the decision is sequences_per_cycle' =
max(256, floor(sequences_per_cycle * 0.9)); this strictly decreases the
setting only when it is above the floor 256 (when below the floor the
decision raises it to 256). -/
theorem c3_backoff_formula_and_strict_decrease_above_floor
    (cfg : ScaleConfig) (m : MemInfo) (hA : cfg.autoScale = true)
    (hT : 100 ≤ m.totalGb) (hP : 90 < m.percent) :
    (monitorAndAdjustResources cfg m).1.sequencesPerCycle
        = max 256 (cfg.sequencesPerCycle * 9 / 10)
      ∧ (256 < cfg.sequencesPerCycle →
          (monitorAndAdjustResources cfg m).1.sequencesPerCycle
            < cfg.sequencesPerCycle) := by
  unfold monitorAndAdjustResources
  simp only [hA]
  split_ifs <;> simp_all <;> omega

/-- Witness for c3_backoff_formula_and_strict_decrease_above_floor at
sequences_per_cycle = 300 under 95 percent pressure. -/
theorem c3_backoff_witness :
    (monitorAndAdjustResources { initialConfig with sequencesPerCycle := 300 }
        { totalGb := 128, availableGb := 50, percent := 95 }).1.sequencesPerCycle
        = max 256 (300 * 9 / 10)
      ∧ (monitorAndAdjustResources { initialConfig with sequencesPerCycle := 300 }
        { totalGb := 128, availableGb := 50, percent := 95 }).1.sequencesPerCycle < 300 :=
  have h := c3_backoff_formula_and_strict_decrease_above_floor
    { initialConfig with sequencesPerCycle := 300 }
    { totalGb := 128, availableGb := 50, percent := 95 }
    rfl (by norm_num) (by norm_num)
  ⟨h.1, h.2 (by decide)⟩

/-- C4 counterexample: the scale-up uses Python int() truncation, i.e.
floor, not the claimed ceil.  At sequences_per_cycle = 50 with low
pressure and ample memory, the code yields min(1024, int(50 * 1.25)) =
62, whereas the claimed formula min(1024, ceil(50 * 1.25)) = 63 (since
50 * 1.25 = 62.5, and (50 * 5 + 3) / 4 is the ceiling of 50 * 5 / 4). -/
theorem c4_scale_up_truncates_not_ceil :
    (monitorAndAdjustResources { initialConfig with sequencesPerCycle := 50 }
        { totalGb := 128, availableGb := 50, percent := 50 }).1.sequencesPerCycle = 62
      ∧ min 1024 ((50 * 5 + 3) / 4) = 63
      ∧ (62 : ℕ) ≠ 63 := by
  have h : monitorAndAdjustResources { initialConfig with sequencesPerCycle := 50 }
      { totalGb := 128, availableGb := 50, percent := 50 }
      = ({ initialConfig with sequencesPerCycle := 62 },
         [ScaleLog.infoScaleUpSequences 50 62]) := by
    norm_num [monitorAndAdjustResources, initialConfig]
  rw [h]
  norm_num [initialConfig]

/-- C4 amended: on an M4-sized machine with pressure below 70 percent and
more than 40 GB available, the decision is sequences_per_cycle' =
min(1024, floor(sequences_per_cycle * 1.25)) — rounding down — and the
setting strictly increases whenever 4 ≤ sequences_per_cycle < 1024
(every reachable value is ≥ 32, so in practice it strictly increases
unless already at the cap). -/
theorem c4_scale_up_formula_floor (cfg : ScaleConfig) (m : MemInfo)
    (hA : cfg.autoScale = true) (hT : 100 ≤ m.totalGb)
    (hP : m.percent < 70) (hM : 40 < m.availableGb) :
    (monitorAndAdjustResources cfg m).1.sequencesPerCycle
        = min 1024 (cfg.sequencesPerCycle * 5 / 4)
      ∧ (4 ≤ cfg.sequencesPerCycle → cfg.sequencesPerCycle < 1024 →
          cfg.sequencesPerCycle
            < (monitorAndAdjustResources cfg m).1.sequencesPerCycle) := by
  have hP' : ¬ (90 < m.percent) := by linarith
  unfold monitorAndAdjustResources
  simp only [hA]
  split_ifs <;> simp_all <;> omega

/-- Witness for c4_scale_up_formula_floor at the initial
sequences_per_cycle = 32 under 50 percent pressure with 50 GB free. -/
theorem c4_scale_up_witness :
    (monitorAndAdjustResources initialConfig
        { totalGb := 128, availableGb := 50, percent := 50 }).1.sequencesPerCycle
        = min 1024 (32 * 5 / 4)
      ∧ 32 < (monitorAndAdjustResources initialConfig
        { totalGb := 128, availableGb := 50, percent := 50 }).1.sequencesPerCycle :=
  have h := c4_scale_up_formula_floor initialConfig
    { totalGb := 128, availableGb := 50, percent := 50 }
    rfl (by norm_num) (by norm_num) (by norm_num)
  ⟨h.1, h.2 (by decide) (by decide)⟩

/-- C8: in the stable band (used percentage between the branch's low and
high thresholds), or whenever the computed new value equals the current
one, the configuration is returned unchanged and no log is emitted.
Stated for both machine classes: thresholds 70/90 for sequences_per_cycle
on total ≥ 100 GB, thresholds 60/85 for batch_size otherwise. -/
theorem c8_stable_band_no_change_no_log (cfg : ScaleConfig) (m : MemInfo)
    (hA : cfg.autoScale = true)
    (hcase :
      (100 ≤ m.totalGb ∧ 70 ≤ m.percent ∧ m.percent ≤ 90)
      ∨ (100 ≤ m.totalGb ∧ 90 < m.percent
          ∧ max 256 (cfg.sequencesPerCycle * 9 / 10) = cfg.sequencesPerCycle)
      ∨ (100 ≤ m.totalGb ∧ m.percent < 70 ∧ 40 < m.availableGb
          ∧ min 1024 (cfg.sequencesPerCycle * 5 / 4) = cfg.sequencesPerCycle)
      ∨ (m.totalGb < 100 ∧ 60 ≤ m.percent ∧ m.percent ≤ 85)
      ∨ (m.totalGb < 100 ∧ 85 < m.percent
          ∧ max 8 (cfg.batchSize * 4 / 5) = cfg.batchSize)
      ∨ (m.totalGb < 100 ∧ m.percent < 60
          ∧ min 512 (cfg.batchSize * 11 / 10) = cfg.batchSize)) :
    monitorAndAdjustResources cfg m = (cfg, []) := by
  have hA' : ¬ (cfg.autoScale = false) := by simp [hA]
  simp only [monitorAndAdjustResources]
  rcases hcase with ⟨hT, hl, hh⟩ | ⟨hT, hh, he⟩ | ⟨hT, hl, hm, he⟩
    | ⟨hT, hl, hh⟩ | ⟨hT, hh, he⟩ | ⟨hT, hl, he⟩
  · rw [if_neg hA', if_pos hT, if_neg (show ¬ (90 < m.percent) by linarith),
      if_neg (show ¬ (m.percent < 70 ∧ 40 < m.availableGb) from
        fun hc => absurd hc.1 (by linarith))]
  · rw [if_neg hA', if_pos hT, if_pos hh, if_neg (not_not.mpr he)]
  · rw [if_neg hA', if_pos hT, if_neg (show ¬ (90 < m.percent) by linarith),
      if_pos ⟨hl, hm⟩, if_neg (not_not.mpr he)]
  · rw [if_neg hA', if_neg (show ¬ (100 ≤ m.totalGb) by linarith),
      if_neg (show ¬ (85 < m.percent) by linarith),
      if_neg (show ¬ (m.percent < 60) by linarith)]
  · rw [if_neg hA', if_neg (show ¬ (100 ≤ m.totalGb) by linarith),
      if_pos hh, if_neg (not_not.mpr he)]
  · rw [if_neg hA', if_neg (show ¬ (100 ≤ m.totalGb) by linarith),
      if_neg (show ¬ (85 < m.percent) by linarith),
      if_pos hl, if_neg (not_not.mpr he)]

/-- Witness for c8_stable_band_no_change_no_log: 80 percent pressure on a
128 GB machine lies between the 70/90 thresholds, so nothing changes and
nothing is logged. -/
theorem c8_stable_band_witness :
    monitorAndAdjustResources initialConfig
        { totalGb := 128, availableGb := 50, percent := 80 }
      = (initialConfig, []) :=
  c8_stable_band_no_change_no_log initialConfig
    { totalGb := 128, availableGb := 50, percent := 80 }
    rfl (Or.inl ⟨by norm_num, by norm_num, by norm_num⟩)

/-! ## Theorems: signal handling and the cycle loop (claims C5, C6) -/

theorem runDiscovery_stopped (u : Bool) (sched : List CycleItem) :
    runDiscovery u sched false
      = RunEvent.finalReport :: (if u then [RunEvent.primaryClosed] else []) := by
  cases sched <;> rfl

theorem runDiscovery_cons_true (u : Bool) (item : CycleItem) (rest : List CycleItem) :
    runDiscovery u (item :: rest) true
      = (match item.outcome with
          | CycleOutcome.ok => [RunEvent.cycleCompleted]
          | CycleOutcome.err m => [RunEvent.errorLogged m, RunEvent.slept (1/10)])
          ++ runDiscovery u rest (!item.signalArrives) := rfl

theorem reportCount_append (a b : List RunEvent) :
    reportCount (a ++ b) = reportCount a + reportCount b := by
  induction a with
  | nil => simp [reportCount]
  | cons x t ih => cases x <;> simp [reportCount, ih] <;> omega

/-- C5 counterexample: the handler body is not only the flag write — it
also performs I/O, calling logger.info before setting self.running
(line 321 of the source), so "no I/O in the handler body" fails. -/
theorem c5_handler_performs_logging :
    (signalHandler
        { running := true, config := initialConfig, sequencesProcessed := 0,
          validDiscoveriesFound := 0, cyclesCompleted := 0 } 2).2 ≠ [] := by
  simp [signalHandler]

/-- C5 amended: the handler sets the running flag to false, changes no
other engine state, and emits exactly one log line (its only I/O); it is
idempotent — a second delivery returns the identical state and the same
single log — and once any iteration's signal has flipped the flag, the
loop winds down with exactly one final shutdown report regardless of how
many further signals are scheduled. -/
theorem c5_handler_flag_only_idempotent_single_report
    (st : EngineState) (signum : ℕ) :
    (signalHandler st signum).1.running = false
      ∧ (signalHandler st signum).1.config = st.config
      ∧ (signalHandler st signum).1.sequencesProcessed = st.sequencesProcessed
      ∧ (signalHandler st signum).1.validDiscoveriesFound = st.validDiscoveriesFound
      ∧ (signalHandler st signum).1.cyclesCompleted = st.cyclesCompleted
      ∧ (signalHandler st signum).2 = [EngineLog.receivedSignal signum]
      ∧ signalHandler (signalHandler st signum).1 signum = signalHandler st signum
      ∧ ∀ (u : Bool) (o : CycleOutcome) (rest : List CycleItem),
          reportCount (runDiscovery u
            ({ outcome := o, signalArrives := true } :: rest) true) = 1 := by
  refine ⟨rfl, rfl, rfl, rfl, rfl, rfl, rfl, ?_⟩
  intro u o rest
  rw [runDiscovery_cons_true, reportCount_append]
  have hstop : reportCount (runDiscovery u rest false) = 1 := by
    rw [runDiscovery_stopped]
    cases u <;> simp [reportCount]
  cases o <;> simp [reportCount, hstop]

/-- C6: every exception raised inside one cycle iteration is logged and
followed by a fixed 0.1-second sleep, after which the loop goes on with
the running flag exactly as a successful iteration would leave it (the
error itself never changes it); and whenever some scheduled iteration
delivers the shutdown signal, the trace contains the final shutdown
report, plus the Neo4j close when use_neo4j is set. -/
theorem c6_cycle_errors_nonfatal_and_exit_behavior
    (u : Bool) (msg : String) (sig : Bool) (rest : List CycleItem) :
    runDiscovery u ({ outcome := CycleOutcome.err msg, signalArrives := sig } :: rest) true
        = RunEvent.errorLogged msg :: RunEvent.slept (1/10)
            :: runDiscovery u rest (!sig)
      ∧ ∀ sched : List CycleItem, sched.any (fun c => c.signalArrives) = true →
          RunEvent.finalReport ∈ runDiscovery u sched true
            ∧ (u = true → RunEvent.primaryClosed ∈ runDiscovery u sched true) := by
  constructor
  · rfl
  · intro sched
    induction sched with
    | nil => intro hs; simp at hs
    | cons c t ih =>
      intro hs
      rw [runDiscovery_cons_true]
      cases hc : c.signalArrives with
      | false =>
        have ht : t.any (fun c => c.signalArrives) = true := by
          rcases List.any_eq_true.mp hs with ⟨x, hx, hxs⟩
          rcases List.mem_cons.mp hx with h | h
          · subst h; rw [hc] at hxs; cases hxs
          · exact List.any_eq_true.mpr ⟨x, h, hxs⟩
        have hmem := ih ht
        simp only [hc, Bool.not_false]
        exact ⟨List.mem_append_right _ hmem.1,
          fun hu => List.mem_append_right _ (hmem.2 hu)⟩
      | true =>
        simp only [hc, Bool.not_true, runDiscovery_stopped]
        constructor
        · exact List.mem_append_right _ (List.mem_cons_self _ _)
        · intro hu
          subst hu
          exact List.mem_append_right _
            (List.mem_cons_of_mem _ (by simp))

/-- Witness for c6_cycle_errors_nonfatal_and_exit_behavior: one erroring
iteration that also receives the signal, with Neo4j enabled. -/
theorem c6_cycle_errors_witness :
    runDiscovery true
        [{ outcome := CycleOutcome.err "boom", signalArrives := true }] true
        = RunEvent.errorLogged "boom" :: RunEvent.slept (1/10)
            :: runDiscovery true [] false
      ∧ RunEvent.finalReport ∈ runDiscovery true
          [{ outcome := CycleOutcome.err "boom", signalArrives := true }] true
      ∧ RunEvent.primaryClosed ∈ runDiscovery true
          [{ outcome := CycleOutcome.err "boom", signalArrives := true }] true :=
  have h := c6_cycle_errors_nonfatal_and_exit_behavior true "boom" true []
  have h2 := h.2 [{ outcome := CycleOutcome.err "boom", signalArrives := true }] rfl
  ⟨h.1, h2.1, h2.2 rfl⟩

/-! ## Theorems: the scorer is not total on empty sequences (claim C9) -/

theorem generateVqbitQuantumStates_length (o : MathOracle) (draw : ℕ → ResidueDraw)
    (s : String) : (generateVqbitQuantumStates o draw s).length = s.length := by
  simp only [generateVqbitQuantumStates, List.length_map, List.enum_length]
  rfl

theorem analyzeSequence_ok_of_nonempty (o : MathOracle) (draw : ℕ → ResidueDraw)
    (sd : SeqDraw) (s : String) (hs : s ≠ "") :
    ∃ r, analyzeSequence o draw sd s = Except.ok r := by
  have hlen : ¬ ((generateVqbitQuantumStates o draw s).length = 0) := by
    rw [generateVqbitQuantumStates_length]
    intro h0
    apply hs
    cases s with
    | mk data =>
      have : data.length = 0 := h0
      have hdata : data = [] := List.length_eq_zero.mp this
      rw [hdata]
  simp only [analyzeSequence]
  rw [if_neg hlen]
  exact ⟨_, rfl⟩

theorem analyzeSequence_empty (o : MathOracle) (draw : ℕ → ResidueDraw) (sd : SeqDraw) :
    analyzeSequence o draw sd "" = Except.error "ZeroDivisionError: division by zero" := rfl

theorem analyzeAll_error_of_mem_empty (o : MathOracle) (draws : ℕ → ℕ → ResidueDraw)
    (sdraws : ℕ → SeqDraw) :
    ∀ (seqs : List String) (i : ℕ), "" ∈ seqs →
      analyzeAll o draws sdraws i seqs
        = Except.error "ZeroDivisionError: division by zero" := by
  intro seqs
  induction seqs with
  | nil => intro i h; simp at h
  | cons s t ih =>
    intro i hmem
    by_cases hs : s = ""
    · subst hs
      simp only [analyzeAll, analyzeSequence_empty]
    · have ht : "" ∈ t := by
        rcases List.mem_cons.mp hmem with h | h
        · exact absurd h.symm hs
        · exact h
      obtain ⟨r, hr⟩ := analyzeSequence_ok_of_nonempty o (draws i) (sdraws i) s hs
      simp only [analyzeAll, hr, ih (i + 1) ht]

/-- C9: the scorer is not total.  One vQbit state is generated per
residue, so an empty sequence yields zero states, and any batch
containing an empty sequence string makes massive_batch_analysis raise
ZeroDivisionError at the superposition_fidelity computation
(states minus collapsed count, divided by the number of states). -/
theorem c9_empty_sequence_division_by_zero (o : MathOracle)
    (draws : ℕ → ℕ → ResidueDraw) (sdraws : ℕ → SeqDraw) (device : String)
    (seqs : List String) :
    (∀ (draw : ℕ → ResidueDraw) (s : String),
        (generateVqbitQuantumStates o draw s).length = s.length)
      ∧ ("" ∈ seqs →
          massiveBatchAnalysis o draws sdraws device seqs
            = Except.error "ZeroDivisionError: division by zero") := by
  constructor
  · intro draw s
    exact generateVqbitQuantumStates_length o draw s
  · intro hmem
    simp only [massiveBatchAnalysis, simplifiedMetalAnalysis,
      analyzeAll_error_of_mem_empty o draws sdraws seqs 0 hmem]

/-- Witness for c9_empty_sequence_division_by_zero: the singleton batch
containing the empty sequence fails with the division-by-zero error. -/
theorem c9_empty_sequence_witness :
    (generateVqbitQuantumStates zeroOracle (fun _ => zeroResidueDraw) "").length
        = ("" : String).length
      ∧ massiveBatchAnalysis zeroOracle (fun _ _ => zeroResidueDraw)
          (fun _ => zeroSeqDraw) "mps" [""]
        = Except.error "ZeroDivisionError: division by zero" :=
  have h := c9_empty_sequence_division_by_zero zeroOracle (fun _ _ => zeroResidueDraw)
    (fun _ => zeroSeqDraw) "mps" [""]
  ⟨h.1 (fun _ => zeroResidueDraw) "", h.2 (List.mem_singleton.mpr rfl)⟩

/-! ## Theorems: validation and storage (claims C10, C7, C1) -/

theorem qualityScore_bounds (s : String) :
    3/10 ≤ qualityScore s ∧ qualityScore s ≤ 1 := by
  simp only [qualityScore]
  split_ifs <;> norm_num

theorem processItems_wf {G : Type} (env : StorageEnv)
    (genCtx : String → QuantumAnalysis → VirtueScores → G)
    (results : List IndividualResult) :
    ∀ (seqs : List String) (i calls : ℕ),
      ((processItems env genCtx results seqs i calls).validDiscoveries.all
          (fun d => discoveryInSpecB d)) = true
      ∧ List.Sublist
          ((processItems env genCtx results seqs i calls).validDiscoveries.map
            (fun d => d.sequence)) seqs := by
  intro seqs
  induction seqs with
  | nil => intro i calls; simp [processItems]
  | cons s t ih =>
    intro i calls
    by_cases hgate : 15 ≤ s.length ∧ s.length ≤ 100
    · have hq := qualityScore_bounds s
      have hwf : ∀ (d : Discovery G), d.sequence = s →
          d.validationScore = qualityScore s → discoveryInSpecB d = true := by
        intro d h1 h2
        simp only [discoveryInSpecB, h1, h2, Bool.and_eq_true, decide_eq_true_eq]
        exact ⟨⟨⟨hgate.1, hgate.2⟩, hq.1⟩, hq.2⟩
      simp only [processItems]
      rw [if_pos hgate]
      cases hnj : env.useNeo4j with
      | false =>
        cases hod : env.outputDir with
        | none =>
          simp only [hnj, Bool.false_eq_true, if_false]
          exact ⟨(ih (i + 1) calls).1,
            List.Sublist.cons _ (ih (i + 1) calls).2⟩
        | some dir =>
          simp only [hnj, Bool.false_eq_true, if_false]
          refine ⟨?_, ?_⟩
          · rw [List.all_cons, (ih (i + 1) calls).1, hwf _ rfl rfl]
            rfl
          · exact List.Sublist.cons₂ _ (ih (i + 1) calls).2
      | true =>
        cases hps : env.primaryStore calls with
        | ok discoveryId =>
          simp only [hnj, if_true]
          refine ⟨?_, ?_⟩
          · rw [List.all_cons, (ih (i + 1) (calls + 1)).1, hwf _ rfl rfl]
            rfl
          · exact List.Sublist.cons₂ _ (ih (i + 1) (calls + 1)).2
        | error e =>
          cases hod : env.outputDir with
          | none =>
            simp only [hnj, if_true]
            exact ⟨(ih (i + 1) (calls + 1)).1,
              List.Sublist.cons _ (ih (i + 1) (calls + 1)).2⟩
          | some dir =>
            simp only [hnj, if_true]
            refine ⟨?_, ?_⟩
            · rw [List.all_cons, (ih (i + 1) (calls + 1)).1, hwf _ rfl rfl]
              rfl
            · exact List.Sublist.cons₂ _ (ih (i + 1) (calls + 1)).2
    · simp only [processItems]
      rw [if_neg hgate]
      exact ⟨(ih (i + 1) calls).1, List.Sublist.cons _ (ih (i + 1) calls).2⟩

/-- C10: every discovery record returned by
_ultra_fast_validate_and_store has a sequence of length between 15 and
100 and a validation score in [0.3, 1.0] (discoveryInSpecB), and the
returned records keep the input batch order: their sequences form a
sublist of the input sequence list. -/
theorem c10_record_bounds_and_order {G : Type} (env : StorageEnv)
    (genCtx : String → QuantumAnalysis → VirtueScores → G)
    (seqs : List String) (mr : MetalResults) :
    ((ultraFastValidateAndStore env genCtx seqs mr).validDiscoveries.all
        (fun d => discoveryInSpecB d)) = true
      ∧ List.Sublist
          ((ultraFastValidateAndStore env genCtx seqs mr).validDiscoveries.map
            (fun d => d.sequence)) seqs :=
  processItems_wf env genCtx mr.individualResults seqs 0 0

theorem processItems_default_mem {G : Type} (env : StorageEnv)
    (genCtx : String → QuantumAnalysis → VirtueScores → G)
    (results : List IndividualResult) (hne : env.useNeo4j = false)
    (dir : String) (hdir : env.outputDir = some dir) :
    ∀ (seqs : List String) (i calls k : ℕ) (hk : k < seqs.length),
      results.length ≤ i + k →
      15 ≤ (seqs.get ⟨k, hk⟩).length → (seqs.get ⟨k, hk⟩).length ≤ 100 →
      ∃ d ∈ (processItems env genCtx results seqs i calls).validDiscoveries,
        d.sequence = seqs.get ⟨k, hk⟩
        ∧ d.validationScore = qualityScore (seqs.get ⟨k, hk⟩)
        ∧ d.metalAnalysis.vqbitScore = 1/2
        ∧ d.metalAnalysis.energyKcalMol = -300
        ∧ d.metalAnalysis.virtueScores
            = { justice := 0, honesty := 0, temperance := 0, prudence := 0 }
        ∧ d.vqbitStates = []
        ∧ d.quantumAnalysis
            = { coherence := 0, entanglementEntropy := 0,
                superpositionFidelity := 0, quantumPhaseCorrelation := 0 } := by
  intro seqs
  induction seqs with
  | nil => intro i calls k hk; exact absurd hk (by simp)
  | cons s t ih =>
    intro i calls k hk hres h15 h100
    cases k with
    | zero =>
      have hgate : 15 ≤ s.length ∧ s.length ≤ 100 := ⟨h15, h100⟩
      have hilt : ¬ (i < results.length) := by omega
      simp only [processItems]
      rw [if_pos hgate, dif_neg hilt, hne]
      simp only [Bool.false_eq_true, if_false, hdir]
      exact ⟨_, List.mem_cons_self _ _, rfl, rfl, rfl, rfl, rfl, rfl, rfl⟩
    | succ n =>
      have hk' : n < t.length := by simpa using hk
      have hres' : results.length ≤ (i + 1) + n := by omega
      by_cases hgate : 15 ≤ s.length ∧ s.length ≤ 100
      · simp only [processItems]
        rw [if_pos hgate, hne]
        simp only [Bool.false_eq_true, if_false, hdir]
        obtain ⟨d, hd, hprops⟩ := ih (i + 1) calls n hk' hres' h15 h100
        exact ⟨d, List.mem_cons_of_mem _ hd, hprops⟩
      · simp only [processItems]
        rw [if_neg hgate]
        exact ih (i + 1) calls n hk' hres' h15 h100

/-- C7: when the scorer's per-item result list is shorter than the item
list, the validate-and-store step does not fail the batch — for an index
past the end of individual_results it substitutes the documented default
result (vqbit_score 0.5, energy -300, zero virtue scores, empty vQbit
states, zero quantum analysis) and still processes the item into the
returned list (shown here for the engine's fallback-file storage mode,
where storage itself always succeeds). -/
theorem c7_default_result_substituted {G : Type} (env : StorageEnv)
    (genCtx : String → QuantumAnalysis → VirtueScores → G)
    (seqs : List String) (mr : MetalResults) (i : ℕ)
    (hne : env.useNeo4j = false) (dir : String) (hdir : env.outputDir = some dir)
    (hk : i < seqs.length) (hres : mr.individualResults.length ≤ i)
    (h15 : 15 ≤ (seqs.get ⟨i, hk⟩).length) (h100 : (seqs.get ⟨i, hk⟩).length ≤ 100) :
    ∃ d ∈ (ultraFastValidateAndStore env genCtx seqs mr).validDiscoveries,
      d.sequence = seqs.get ⟨i, hk⟩
      ∧ d.validationScore = qualityScore (seqs.get ⟨i, hk⟩)
      ∧ d.metalAnalysis.vqbitScore = 1/2
      ∧ d.metalAnalysis.energyKcalMol = -300
      ∧ d.metalAnalysis.virtueScores
          = { justice := 0, honesty := 0, temperance := 0, prudence := 0 }
      ∧ d.vqbitStates = []
      ∧ d.quantumAnalysis
          = { coherence := 0, entanglementEntropy := 0,
              superpositionFidelity := 0, quantumPhaseCorrelation := 0 } :=
  processItems_default_mem env genCtx mr.individualResults hne dir hdir
    seqs 0 0 i hk (by omega) h15 h100

/-- Witness for c7_default_result_substituted: a single 20-residue item
with an empty individual_results list, in fallback-file mode. -/
theorem c7_default_result_witness :
    ∃ d ∈ (ultraFastValidateAndStore fallbackOnlyEnv unitGenCtx [seqA20]
        emptyMetalResults).validDiscoveries,
      d.sequence = seqA20
      ∧ d.validationScore = qualityScore seqA20
      ∧ d.metalAnalysis.vqbitScore = 1/2
      ∧ d.metalAnalysis.energyKcalMol = -300
      ∧ d.metalAnalysis.virtueScores
          = { justice := 0, honesty := 0, temperance := 0, prudence := 0 }
      ∧ d.vqbitStates = []
      ∧ d.quantumAnalysis
          = { coherence := 0, entanglementEntropy := 0,
              superpositionFidelity := 0, quantumPhaseCorrelation := 0 } :=
  c7_default_result_substituted fallbackOnlyEnv unitGenCtx [seqA20]
    emptyMetalResults 0 rfl "m4_continuous_discoveries" rfl
    (by decide) (by decide) (by decide) (by decide)

/-- C1 (code defect): with Neo4j enabled and the primary store failing,
the fallback write itself fails, because __init__ creates
discovery_output_dir only when use_neo4j is False (lines 309-312), so
_save_discovery_to_file raises AttributeError (line 510); the outer
per-item handler (lines 498-500) swallows it at DEBUG level — which the
INFO logging configuration of line 31 suppresses — and drops the record.
A qualifying record thus produces no primary id, no fallback file, and
no lost-record log entry, contradicting the claimed
exactly-one-of-three-outcomes guarantee; the only emitted entries are the
inner handler's storage-error pair, after which the retry crashes. -/
theorem c1_record_dropped_when_primary_fails :
    (ultraFastValidateAndStore failingPrimaryEnv unitGenCtx [seqA20]
        emptyMetalResults).primaryIds = []
      ∧ (ultraFastValidateAndStore failingPrimaryEnv unitGenCtx [seqA20]
          emptyMetalResults).fileWrites = []
      ∧ (ultraFastValidateAndStore failingPrimaryEnv unitGenCtx [seqA20]
          emptyMetalResults).validDiscoveries = []
      ∧ (ultraFastValidateAndStore failingPrimaryEnv unitGenCtx [seqA20]
          emptyMetalResults).logs
          = [StoreLog.printStorageError "Neo4j unavailable",
             StoreLog.errorFailedStore "Neo4j unavailable",
             StoreLog.debugItemError 0] := by
  have hgate : 15 ≤ seqA20.length ∧ seqA20.length ≤ 100 := by decide
  simp only [ultraFastValidateAndStore, emptyMetalResults, processItems]
  rw [if_pos hgate]
  simp [failingPrimaryEnv, initOutputDir]

end M4Discovery
